import Mathlib

/-!
Verification development for the VersatileESPCampLog data logger
(src/datalogger.ino). The sketch's global state is embedded as an explicit
record `Sys`; the SD card, the sensors, the RTC and libc are external
collaborators and are embedded as explicit environment records whose fields
are the results the hardware would return. Machine `uint32_t` arithmetic is
modelled on `Nat` with an explicit reduction `u32` where the source relies
on wrap-around; `float` sensor values are modelled on `Rat` (the only float
operations the verified code performs on them are exact comparisons against
the two integral DS18B20 sentinel codes, which translate exactly).
-/

namespace Datalogger

/-- Reduction of a `Nat` to the value of the corresponding `uint32_t`. -/
def u32 (n : Nat) : Nat := n % 4294967296

/-- `const uint32_t SHT_RETRY_INTERVAL = 10` (line 68). -/
def SHT_RETRY_INTERVAL : Nat := 10

/-- `const uint32_t INTERVAL_NO_SD = 60` (line 80). -/
def INTERVAL_NO_SD : Nat := 60

/-- `const uint32_t INTERVAL_SD = 240` (line 81). -/
def INTERVAL_SD : Nat := 240

/-- `const uint8_t SD_MAX_RETRIES = 5` (line 123). -/
def SD_MAX_RETRIES : Nat := 5

/-- `const uint32_t MAX_SLEEP_SEC = 268` (line 1126). -/
def MAX_SLEEP_SEC : Nat := 268

/-- `const float DS18B20_ERROR_DISCONNECTED = -127.0f` (line 94). -/
def DS18B20_ERROR_DISCONNECTED : Rat := -127

/-- `const float DS18B20_ERROR_POWER_ON_RESET = 85.0f` (line 95). -/
def DS18B20_ERROR_POWER_ON_RESET : Rat := 85

/-- `const char *CSV_HEADER` (lines 90-91). -/
def CSV_HEADER : String :=
  "ts_utc,epoch_ms,timestamp_local,temperature_C,humidity_pct,dewpoint_C,water_temp_C,sht_ok,water_ok"

/-- The characters `println(CSV_HEADER)` puts on the medium (Arduino
`println` terminates the line with CR LF). -/
def headerLine : List Char := CSV_HEADER.data ++ ['\r', '\n']

/-- The active log file name `"/data.csv"`. -/
def dataFileName : String := "/data.csv"

/-- `RTClib` `DateTime` as consumed by the sketch: a plain calendar tuple. -/
structure DateTime where
  year : Nat
  month : Nat
  day : Nat
  hour : Nat
  minute : Nat
  second : Nat
deriving DecidableEq

/-- The placeholder timestamp `DateTime(2023, 1, 1, 0, 0, 0)` used by
`measureAndLog` when the RTC is unavailable (line 921). -/
def PLACEHOLDER_TS : DateTime := ⟨2023, 1, 1, 0, 0, 0⟩

/-- The SD medium: an association list from file name to file content
(a flat character sequence, as the sketch reads files byte by byte). -/
abbrev Storage := List (String × List Char)

/-- Content of a named file, if present. -/
def Storage.getFile : Storage → String → Option (List Char)
  | [], _ => none
  | (n, c) :: rest, m => if n == m then some c else Storage.getFile rest m

/-- `SD.exists`. -/
def Storage.existsFile : Storage → String → Bool
  | [], _ => false
  | (n, _) :: rest, m => n == m || Storage.existsFile rest m

/-- `SD.remove`. -/
def Storage.removeFile : Storage → String → Storage
  | [], _ => []
  | (n, c) :: rest, m =>
    if n == m then Storage.removeFile rest m else (n, c) :: Storage.removeFile rest m

/-- Create (or truncating: replace) a file with the given content. -/
def Storage.setFile (st : Storage) (m : String) (c : List Char) : Storage :=
  (m, c) :: Storage.removeFile st m

/-- Append characters to an existing file (a successful `File::println`). -/
def Storage.appendToFile : Storage → String → List Char → Storage
  | [], _, _ => []
  | (n, c) :: rest, m, cs =>
    if n == m then (n, c ++ cs) :: rest else (n, c) :: Storage.appendToFile rest m cs

/-- `SD.rename(oldName, newName)` when the library call succeeds: the
content moves to the new name. -/
def Storage.renameFile (st : Storage) (oldN newN : String) : Storage :=
  match Storage.getFile st oldN with
  | none => st
  | some c => Storage.setFile (Storage.removeFile st oldN) newN c

/-- `SD.open(name, FILE_WRITE)`: opens for append, creating an empty file
when the name is absent. -/
def Storage.openWriteEnsure (st : Storage) (m : String) : Storage :=
  if Storage.existsFile st m then st else Storage.setFile st m []

/-- The sketch's global mutable state (lines 52-126 and the `data` /
`historicalData` records, lines 100-115). Fields irrelevant to every claim
(display buffers, EEPROM, timers used only for logging messages) are
omitted. -/
structure Sys where
  sdAvailable : Bool
  sdFailCount : Nat
  logCount : Nat
  interval : Nat
  shtOK : Bool
  ds18b20OK : Bool
  rtcOK : Bool
  displayOn : Bool
  displayUpdateCount : Nat
  dsConvPending : Bool
  dsConvReadyAt : Nat
  sht_retry_counter : Nat
  lastMeasureUnix : Nat
  isMeasuring : Bool
  storage : Storage
  dataT : Rat
  dataH : Rat
  dataTd : Rat
  dataTWater : Rat
  dataShtValid : Bool
  dataWaterTempValid : Bool
  dataTs : DateTime
  historicalValid : Bool
deriving DecidableEq

/-- A neutral base state used to build concrete inputs. -/
def baseSys : Sys where
  sdAvailable := false
  sdFailCount := 0
  logCount := 0
  interval := INTERVAL_NO_SD
  shtOK := true
  ds18b20OK := false
  rtcOK := true
  displayOn := false
  displayUpdateCount := 0
  dsConvPending := false
  dsConvReadyAt := 0
  sht_retry_counter := 0
  lastMeasureUnix := 0
  isMeasuring := false
  storage := []
  dataT := 0
  dataH := 0
  dataTd := 0
  dataTWater := 0
  dataShtValid := false
  dataWaterTempValid := false
  dataTs := PLACEHOLDER_TS
  historicalValid := false

/-- The sleep-duration computation at the head of `enterLightSleep`
(lines 1126-1139): `remaining` starts at `interval`; with a working RTC it
becomes `interval - elapsed` (underflow-guarded `elapsed`, and `1` once
`elapsed >= interval`); finally it is clamped to `MAX_SLEEP_SEC` above and
to `1` below. The `uint32_t` subtractions are guarded by the comparisons,
so they agree with `Nat` subtraction. -/
def enterLightSleepRemaining (rtcOK : Bool) (interval nowUnix lastMeasureUnix : Nat) : Nat :=
  let remaining := interval
  let remaining :=
    if rtcOK then
      let elapsed := if nowUnix ≥ lastMeasureUnix then nowUnix - lastMeasureUnix else 0
      if elapsed < interval then interval - elapsed else 1
    else remaining
  let remaining := if remaining > MAX_SLEEP_SEC then MAX_SLEEP_SEC else remaining
  if remaining = 0 then 1 else remaining

/-- C3: for every `interval`, `lastMeasureUnix`, RTC-reported `now` and
`rtcOK` flag, the sleep duration `remaining` computed in `enterLightSleep`
lies in `[1, MAX_SLEEP_SEC] = [1, 268]`; in particular with
`interval = 240` and `now = lastMeasureUnix + 250` it equals `1`. -/
theorem enterLightSleep_remaining_bounds (rtcOK : Bool) (interval nowUnix lastMeasureUnix : Nat) :
    1 ≤ enterLightSleepRemaining rtcOK interval nowUnix lastMeasureUnix ∧
    enterLightSleepRemaining rtcOK interval nowUnix lastMeasureUnix ≤ MAX_SLEEP_SEC ∧
    enterLightSleepRemaining true 240 (lastMeasureUnix + 250) lastMeasureUnix = 1 := by
  unfold enterLightSleepRemaining MAX_SLEEP_SEC
  refine ⟨?_, ?_, ?_⟩ <;>
    · dsimp only
      split_ifs <;> first | omega | simp_all

/-- The scan loop of `countLogEntries` (lines 356-368): counts newline
characters, treating everything up to the first newline as the header. -/
def countRowsScan : List Char → Bool → Nat → Nat
  | [], _, acc => acc
  | c :: rest, isHeader, acc =>
    if c = '\n' then
      if isHeader then countRowsScan rest false acc
      else countRowsScan rest isHeader (acc + 1)
    else countRowsScan rest isHeader acc

/-- `countLogEntries` (lines 346-372): `0` when the medium is unavailable
or `/data.csv` cannot be opened (`openOK` is the hardware outcome of
`SD.open(FILE_READ)`), otherwise the newline scan. -/
def countLogEntries (s : Sys) (openOK : Bool) : Nat :=
  if !s.sdAvailable then 0
  else
    match (if openOK then Storage.getFile s.storage dataFileName else none) with
    | none => 0
    | some cs => countRowsScan cs true 0

/-- Hardware outcomes consumed by one `verifyLastWrite` call: whether the
five open attempts for `/data.csv` eventually succeed, and whether the
re-open inside `countLogEntries` succeeds. -/
structure VerifyEnv where
  openOK : Bool
  countOpenOK : Bool

/-- Result of `verifyLastWrite`: post-state, returned Bool, and (model
instrumentation) whether the counting pass was performed. -/
structure VerifyResult where
  sys : Sys
  ret : Bool
  didCountPass : Bool

/-- `verifyLastWrite` (lines 491-541). Unavailable medium: `false`. An
open failure (hardware refusal or absent file) shuts the card down and
marks it unavailable. A file shorter than 10 bytes: `false` with no other
effect. Otherwise the counting pass resynchronizes `logCount` to the
observed count and reports whether it was at least the tracked count. -/
def verifyLastWrite (s : Sys) (e : VerifyEnv) : VerifyResult :=
  if !s.sdAvailable then ⟨s, false, false⟩
  else
    match (if e.openOK then Storage.getFile s.storage dataFileName else none) with
    | none => ⟨{ s with sdAvailable := false }, false, false⟩
    | some cs =>
      if cs.length < 10 then ⟨s, false, false⟩
      else
        let actualCount := countLogEntries s e.countOpenOK
        if actualCount ≥ s.logCount then ⟨{ s with logCount := actualCount }, true, true⟩
        else ⟨{ s with logCount := actualCount }, false, true⟩

/-- Observable events of one `logData` call, in program order (model
instrumentation for the ordering claims). `wroteHeader` / `wroteRow` carry
the byte count `println` reported; `flushEv` / `closeEv` are the
`f.flush()` / `f.close()` calls; `resetCount` is `logCount = 0` on the
recreate path; `incCount` is `logCount++`. -/
inductive LogEv where
  | createOpenFail
  | wroteHeader (n : Nat)
  | resetCount
  | openFail
  | wroteRow (n : Nat)
  | flushEv
  | closeEv
  | incCount
deriving DecidableEq

/-- Hardware outcomes consumed by one iteration of the `logData` retry
loop: the result of a `reinitSD` attempt (and how many failed hardware
attempts it recorded), of `SD.open(FILE_WRITE)` for the recreate path and
for the row write, whether `println` physically wrote (zero bytes
otherwise), and whether the medium dropped the freshly created file before
the `SD.exists` re-check. -/
structure LogIterEnv where
  reinitOK : Bool
  reinitFailIncr : Nat
  createOpenOK : Bool
  headerWriteOK : Bool
  vanishAfterCreate : Bool
  rowOpenOK : Bool
  rowWriteOK : Bool

/-- The success path of `reinitSD` (lines 192-344): on success the card is
marked available, the failure counter clears, the logging interval is
selected, and `/data.csv` is guaranteed present (created with the header
when absent, lines 253-302). Its internals never touch `logCount`. -/
def reinitSuccess (s : Sys) : Sys :=
  { s with
    sdAvailable := true
    sdFailCount := 0
    interval := INTERVAL_SD
    storage :=
      if Storage.existsFile s.storage dataFileName then s.storage
      else Storage.setFile s.storage dataFileName headerLine }

/-- Outcome of one `logData` loop iteration: `retry` is a `continue` after
`retryCount++`; `done` is a `return` (`ok` true only on the committed-row
return, line 664). -/
inductive IterOut where
  | retry (s : Sys)
  | done (s : Sys) (ok : Bool)

/-- The state carried by an `IterOut`. -/
def IterOut.sys : IterOut → Sys
  | .retry s => s
  | .done s _ => s

/-- The medium content after the row-append stage opened `/data.csv` for
append and ran `println`: the row plus CR LF lands on the file when the
write physically happened, nothing otherwise. -/
def rowWriteStorage (s : Sys) (e : LogIterEnv) (row : List Char) : Storage :=
  if e.rowWriteOK then
    Storage.appendToFile (Storage.openWriteEnsure s.storage dataFileName) dataFileName
      (row ++ ['\r', '\n'])
  else Storage.openWriteEnsure s.storage dataFileName

/-- The byte count `println` reports for the row in the row-append
stage. -/
def rowWritten (e : LogIterEnv) (row : List Char) : Nat :=
  if e.rowWriteOK then row.length + 2 else 0

/-- The row-append part of a `logData` iteration (lines 598-664): open for
write (failure marks the card unavailable and retries), `println` the
serialized row, flush, close, treat zero bytes written as failure,
otherwise `logCount++` and return. `row` is the `snprintf`-serialized line
(lines 607-644), abstracted as a parameter because no claim inspects the
row text; `println` appends CR LF. -/
def logDataRowWrite (s : Sys) (e : LogIterEnv) (row : List Char) (evs : List LogEv) :
    IterOut × List LogEv :=
  if !e.rowOpenOK then (.retry { s with sdAvailable := false }, evs ++ [.openFail])
  else if rowWritten e row == 0 then
    (.retry { s with storage := rowWriteStorage s e row, sdAvailable := false },
      evs ++ [.wroteRow (rowWritten e row), .flushEv, .closeEv])
  else
    (.done { s with storage := rowWriteStorage s e row, logCount := s.logCount + 1 } true,
      evs ++ [.wroteRow (rowWritten e row), .flushEv, .closeEv, .incCount])

/-- The medium content after the recreate path of `logData` opened an
absent `/data.csv` for write (creating it empty), ran `println` with the
header, flushed and closed: the header lands on the file when the write
physically happened, and the medium may still drop the file before the
`SD.exists` re-check. -/
def logDataCreateStorage (st0 : Storage) (e : LogIterEnv) : Storage :=
  if e.vanishAfterCreate then
    Storage.removeFile
      (if e.headerWriteOK then
        Storage.appendToFile (Storage.setFile st0 dataFileName []) dataFileName headerLine
      else Storage.setFile st0 dataFileName []) dataFileName
  else
    if e.headerWriteOK then
      Storage.appendToFile (Storage.setFile st0 dataFileName []) dataFileName headerLine
    else Storage.setFile st0 dataFileName []

/-- The byte count `println` reports for the header on the recreate
path. -/
def headerWritten (e : LogIterEnv) : Nat :=
  if e.headerWriteOK then headerLine.length else 0

/-- The file-presence part of a `logData` iteration (lines 562-596): when
`/data.csv` disappeared, recreate it with the canonical header and reset
`logCount` to 0; any failure marks the card unavailable and retries. -/
def logDataEnsureFile (s : Sys) (e : LogIterEnv) (row : List Char) : IterOut × List LogEv :=
  if Storage.existsFile s.storage dataFileName then logDataRowWrite s e row []
  else if !e.createOpenOK then (.retry { s with sdAvailable := false }, [.createOpenFail])
  else if Storage.existsFile (logDataCreateStorage s.storage e) dataFileName then
    logDataRowWrite { s with storage := logDataCreateStorage s.storage e, logCount := 0 } e row
      [LogEv.wroteHeader (headerWritten e), .flushEv, .closeEv, .resetCount]
  else
    (.retry { s with storage := logDataCreateStorage s.storage e, sdAvailable := false },
      [LogEv.wroteHeader (headerWritten e), .flushEv, .closeEv])

/-- One iteration of the `logData` retry loop (lines 548-665), starting
with the availability check: an unavailable card is recovered through
`reinitSD` while fewer than `SD_MAX_RETRIES` failures are on record,
otherwise `logData` gives up, drops to the no-SD interval and returns. -/
def logDataIter (s : Sys) (e : LogIterEnv) (row : List Char) : IterOut × List LogEv :=
  if s.sdAvailable then logDataEnsureFile s e row
  else if s.sdFailCount < SD_MAX_RETRIES then
    if e.reinitOK then logDataEnsureFile (reinitSuccess s) e row
    else (.retry { s with sdFailCount := s.sdFailCount + e.reinitFailIncr }, [])
  else (.done { s with interval := INTERVAL_NO_SD } false, [])

/-- Result of a `logData` call: post-state, the event trace, and whether a
row was committed (the `return` on line 664 was reached). -/
structure LogResult where
  sys : Sys
  trace : List LogEv
  ok : Bool

/-- The second (and last) iteration of the `logData` retry loop together
with the loop exit: exhausting both retries drops to the no-SD interval
(line 668). `t0` is the event trace of the first iteration. -/
def logDataFinish (t0 : List LogEv) (s1 : Sys) (e1 : LogIterEnv) (row : List Char) : LogResult :=
  match logDataIter s1 e1 row with
  | (.done s2 ok, evs2) => ⟨s2, t0 ++ evs2, ok⟩
  | (.retry s2, evs2) => ⟨{ s2 with interval := INTERVAL_NO_SD }, t0 ++ evs2, false⟩

/-- `logData` (lines 543-669): the retry loop unrolled to its
`MAX_LOG_RETRIES = 2` iterations (`e0` and `e1` are the hardware outcomes
of the two iterations). -/
def logData (s : Sys) (e0 e1 : LogIterEnv) (row : List Char) : LogResult :=
  match logDataIter s e0 row with
  | (.done s1 ok, evs) => ⟨s1, evs, ok⟩
  | (.retry s1, evs) => logDataFinish evs s1 e1 row

/-- C5: when `verifyLastWrite` reaches its counting pass (the card is
available, the open succeeded, the file is at least 10 bytes), it
resynchronizes `logCount` to the observed count and returns true exactly
when the observed count is at least the tracked count (false — a reported
mismatch — when it is smaller). -/
theorem verifyLastWrite_resyncs_to_observed (s : Sys) (e : VerifyEnv) (cs : List Char)
    (h1 : s.sdAvailable = true) (h2 : e.openOK = true)
    (h3 : Storage.getFile s.storage dataFileName = some cs)
    (h4 : 10 ≤ cs.length) :
    (verifyLastWrite s e).sys.logCount = countLogEntries s e.countOpenOK ∧
    (verifyLastWrite s e).ret = decide (s.logCount ≤ countLogEntries s e.countOpenOK) ∧
    (verifyLastWrite s e).sys.sdAvailable = true ∧
    (verifyLastWrite s e).didCountPass = true := by
  unfold verifyLastWrite
  rw [h1, h2]
  simp only [Bool.not_true, Bool.false_eq_true, if_false, if_true, h3]
  rw [if_neg (by omega)]
  by_cases hge : countLogEntries s e.countOpenOK ≥ s.logCount
  · rw [if_pos hge]
    simp [hge]
  · rw [if_neg hge]
    simp [hge]

/-- Concrete file for the C5 scenario: the header plus five one-character
rows, with a tracked count of 6. -/
def c5Row : List Char := ['r', '\r', '\n']

/-- Content of the C5 scenario file. -/
def c5Content : List Char := headerLine ++ c5Row ++ c5Row ++ c5Row ++ c5Row ++ c5Row

/-- Pre-state of the C5 scenario: 5 physical rows, tracked count 6. -/
def c5State : Sys :=
  { baseSys with sdAvailable := true, logCount := 6, storage := [(dataFileName, c5Content)] }

/-- Hardware outcomes with every operation succeeding (verify). -/
def allOKVerify : VerifyEnv := ⟨true, true⟩

/-- Hardware outcomes with every operation succeeding (one logData
iteration). -/
def allOKIter : LogIterEnv := ⟨true, 0, true, true, false, true, true⟩

/-- Witness for C5: on a file with 5 observed rows and tracked count 6 the
verify pass resynchronizes the tracked count to 5 and reports a mismatch,
and a subsequent successful append increments the count to 6. -/
theorem verifyLastWrite_resyncs_to_observed_witness :
    ((verifyLastWrite c5State allOKVerify).sys.logCount = countLogEntries c5State true ∧
     (verifyLastWrite c5State allOKVerify).ret =
       decide (c5State.logCount ≤ countLogEntries c5State true) ∧
     (verifyLastWrite c5State allOKVerify).sys.sdAvailable = true ∧
     (verifyLastWrite c5State allOKVerify).didCountPass = true) ∧
    countLogEntries c5State true = 5 ∧
    c5State.logCount = 6 ∧
    (verifyLastWrite c5State allOKVerify).ret = false ∧
    (logData (verifyLastWrite c5State allOKVerify).sys allOKIter allOKIter ['r']).sys.logCount = 6 ∧
    (logData (verifyLastWrite c5State allOKVerify).sys allOKIter allOKIter ['r']).ok = true :=
  ⟨verifyLastWrite_resyncs_to_observed c5State allOKVerify c5Content rfl rfl (by decide)
      (by decide),
   by decide, by decide, by decide, by decide, by decide⟩

/-- C10: when the card is available and the open succeeds but the file is
shorter than 10 bytes, `verifyLastWrite` returns false with the state
fully unchanged (no `logCount` resynchronization, no counting pass, card
still available) — in contrast to the open-failure path, which marks the
card unavailable (and leaves `logCount` alone). -/
theorem verifyLastWrite_small_file_no_effect (s s2 : Sys) (e e2 : VerifyEnv) (cs : List Char)
    (h1 : s.sdAvailable = true) (h2 : e.openOK = true)
    (h3 : Storage.getFile s.storage dataFileName = some cs)
    (h4 : cs.length < 10)
    (h5 : s2.sdAvailable = true) (h6 : e2.openOK = false) :
    (verifyLastWrite s e).ret = false ∧
    (verifyLastWrite s e).sys = s ∧
    (verifyLastWrite s e).didCountPass = false ∧
    (verifyLastWrite s2 e2).ret = false ∧
    (verifyLastWrite s2 e2).sys.sdAvailable = false ∧
    (verifyLastWrite s2 e2).sys.logCount = s2.logCount := by
  unfold verifyLastWrite
  rw [h1, h2, h5, h6]
  simp only [Bool.not_true, Bool.false_eq_true, if_false, if_true, h3]
  rw [if_pos h4]
  simp

/-- Pre-state of the C10 witness: a 2-byte `/data.csv`, tracked count 3. -/
def c10State : Sys :=
  { baseSys with sdAvailable := true, logCount := 3, storage := [(dataFileName, ['x', '\n'])] }

/-- Degraded hardware for the C10 contrast path: the open fails. -/
def c10OpenFails : VerifyEnv := ⟨false, true⟩

/-- Witness for C10 at a concrete 2-byte file. -/
theorem verifyLastWrite_small_file_no_effect_witness :
    (verifyLastWrite c10State allOKVerify).ret = false ∧
    (verifyLastWrite c10State allOKVerify).sys = c10State ∧
    (verifyLastWrite c10State allOKVerify).didCountPass = false ∧
    (verifyLastWrite c10State c10OpenFails).ret = false ∧
    (verifyLastWrite c10State c10OpenFails).sys.sdAvailable = false ∧
    (verifyLastWrite c10State c10OpenFails).sys.logCount = c10State.logCount :=
  verifyLastWrite_small_file_no_effect c10State c10State allOKVerify c10OpenFails
    ['x', '\n'] rfl rfl (by decide) (by decide) rfl rfl

/-- Window test used by `goodIncFrom`: the three events immediately before
a counter increment must be a non-zero row write, a flush and a close, in
that order. -/
def isCommitWindow : LogEv → LogEv → LogEv → Bool
  | LogEv.wroteRow n, LogEv.flushEv, LogEv.closeEv => n != 0
  | _, _, _ => false

/-- Scans a trace keeping the last three events (`a` third-last, `b`
second-last, `c` last); every `incCount` must sit right after a
non-zero-write/flush/close window. -/
def goodIncFrom : LogEv → LogEv → LogEv → List LogEv → Bool
  | _, _, _, [] => true
  | a, b, c, LogEv.incCount :: rest =>
    isCommitWindow a b c && goodIncFrom b c LogEv.incCount rest
  | _, b, c, ev :: rest => goodIncFrom b c ev rest

/-- A trace increments the row counter only right after a flushed, closed,
non-zero row write (the seed window cannot satisfy `isCommitWindow`, so an
increment within the first three events also fails). -/
def goodInc (tr : List LogEv) : Bool :=
  goodIncFrom LogEv.closeEv LogEv.closeEv LogEv.closeEv tr

/-- Number of `incCount` events in a trace. -/
def countIncs : List LogEv → Nat
  | [] => 0
  | LogEv.incCount :: rest => countIncs rest + 1
  | _ :: rest => countIncs rest

/-- Replays the counter effects of a trace on a starting `logCount`. -/
def applyCount : Nat → List LogEv → Nat
  | n, [] => n
  | _, LogEv.resetCount :: rest => applyCount 0 rest
  | n, LogEv.incCount :: rest => applyCount (n + 1) rest
  | n, _ :: rest => applyCount n rest

/-- The possible outcomes of one `logData` iteration, together with the
counter relation each outcome guarantees. -/
inductive IterShape (s : Sys) (row : List Char) : IterOut × List LogEv → Prop where
  | giveUp (s1 : Sys) (h : s1.logCount = s.logCount) :
      IterShape s row (IterOut.done s1 false, [])
  | retryNil (s1 : Sys) (h : s1.logCount = s.logCount) :
      IterShape s row (IterOut.retry s1, [])
  | retryCreateOpen (s1 : Sys) (h : s1.logCount = s.logCount) :
      IterShape s row (IterOut.retry s1, [LogEv.createOpenFail])
  | retryCreateGone (s1 : Sys) (n : Nat) (h : s1.logCount = s.logCount) :
      IterShape s row (IterOut.retry s1, [LogEv.wroteHeader n, LogEv.flushEv, LogEv.closeEv])
  | retryOpen (s1 : Sys) (h : s1.logCount = s.logCount) :
      IterShape s row (IterOut.retry s1, [LogEv.openFail])
  | retryOpenAfterCreate (s1 : Sys) (n : Nat) (h : s1.logCount = 0) :
      IterShape s row (IterOut.retry s1,
        [LogEv.wroteHeader n, LogEv.flushEv, LogEv.closeEv, LogEv.resetCount, LogEv.openFail])
  | retryZero (s1 : Sys) (h : s1.logCount = s.logCount) :
      IterShape s row (IterOut.retry s1, [LogEv.wroteRow 0, LogEv.flushEv, LogEv.closeEv])
  | retryZeroAfterCreate (s1 : Sys) (n : Nat) (h : s1.logCount = 0) :
      IterShape s row (IterOut.retry s1,
        [LogEv.wroteHeader n, LogEv.flushEv, LogEv.closeEv, LogEv.resetCount,
         LogEv.wroteRow 0, LogEv.flushEv, LogEv.closeEv])
  | commit (s1 : Sys) (h : s1.logCount = s.logCount + 1) :
      IterShape s row (IterOut.done s1 true,
        [LogEv.wroteRow (row.length + 2), LogEv.flushEv, LogEv.closeEv, LogEv.incCount])
  | commitAfterCreate (s1 : Sys) (n : Nat) (h : s1.logCount = 1) :
      IterShape s row (IterOut.done s1 true,
        [LogEv.wroteHeader n, LogEv.flushEv, LogEv.closeEv, LogEv.resetCount,
         LogEv.wroteRow (row.length + 2), LogEv.flushEv, LogEv.closeEv, LogEv.incCount])

/-- The row-append stage has three outcomes: open failure, zero-byte
write, or a committed row with the counter incremented. -/
theorem logDataRowWrite_shape (s : Sys) (e : LogIterEnv) (row : List Char) (evs : List LogEv) :
    (∃ s1, logDataRowWrite s e row evs = (.retry s1, evs ++ [.openFail]) ∧
      s1.logCount = s.logCount) ∨
    (∃ s1, logDataRowWrite s e row evs = (.retry s1, evs ++ [.wroteRow 0, .flushEv, .closeEv]) ∧
      s1.logCount = s.logCount) ∨
    (∃ s1, logDataRowWrite s e row evs =
        (.done s1 true, evs ++ [.wroteRow (row.length + 2), .flushEv, .closeEv, .incCount]) ∧
      s1.logCount = s.logCount + 1) := by
  unfold logDataRowWrite
  cases hOpen : e.rowOpenOK with
  | false =>
    refine Or.inl ⟨{ s with sdAvailable := false }, ?_, rfl⟩
    simp
  | true =>
    cases hW : e.rowWriteOK with
    | false =>
      refine Or.inr (Or.inl ⟨{ s with storage := rowWriteStorage s e row, sdAvailable := false }, ?_, rfl⟩)
      simp [rowWritten, hW]
    | true =>
      refine Or.inr (Or.inr ⟨{ s with storage := rowWriteStorage s e row, logCount := s.logCount + 1 }, ?_, rfl⟩)
      simp [rowWritten, hW]

/-- The file-presence stage refines the row-append outcomes into the full
set of iteration outcomes. -/
theorem logDataEnsureFile_shape (s : Sys) (e : LogIterEnv) (row : List Char) :
    IterShape s row (logDataEnsureFile s e row) := by
  unfold logDataEnsureFile
  by_cases hEx : Storage.existsFile s.storage dataFileName = true
  · rw [if_pos hEx]
    rcases logDataRowWrite_shape s e row [] with ⟨s1, hEq, hc⟩ | ⟨s1, hEq, hc⟩ | ⟨s1, hEq, hc⟩ <;>
        rw [hEq] <;> simp only [List.nil_append]
    · exact .retryOpen s1 hc
    · exact .retryZero s1 hc
    · exact .commit s1 hc
  · rw [if_neg hEx]
    cases hCr : e.createOpenOK with
    | false => simp only [Bool.not_false, if_true]; exact .retryCreateOpen _ rfl
    | true =>
      simp only [Bool.not_true, Bool.false_eq_true, if_false]
      by_cases hEx2 :
          Storage.existsFile (logDataCreateStorage s.storage e) dataFileName = true
      · rw [if_pos hEx2]
        rcases logDataRowWrite_shape
            { s with storage := logDataCreateStorage s.storage e, logCount := 0 } e row
            [LogEv.wroteHeader (headerWritten e), .flushEv, .closeEv, .resetCount] with
          ⟨s1, hEq, hc⟩ | ⟨s1, hEq, hc⟩ | ⟨s1, hEq, hc⟩ <;> rw [hEq] <;> simp only [List.cons_append, List.nil_append]
        · exact .retryOpenAfterCreate s1 _ hc
        · exact .retryZeroAfterCreate s1 _ hc
        · exact .commitAfterCreate s1 _ hc
      · rw [if_neg hEx2]
        exact .retryCreateGone _ _ rfl

/-- Every `logData` iteration falls into one of the `IterShape`
outcomes. -/
theorem logDataIter_shape (s : Sys) (e : LogIterEnv) (row : List Char) :
    IterShape s row (logDataIter s e row) := by
  unfold logDataIter
  by_cases hA : s.sdAvailable
  · rw [if_pos hA]
    exact logDataEnsureFile_shape s e row
  · rw [if_neg hA]
    by_cases hF : s.sdFailCount < SD_MAX_RETRIES
    · rw [if_pos hF]
      cases hR : e.reinitOK with
      | false => exact .retryNil _ rfl
      | true =>
        rw [if_pos rfl]
        have h := logDataEnsureFile_shape (reinitSuccess s) e row
        have hc : (reinitSuccess s).logCount = s.logCount := rfl
        revert h
        generalize logDataEnsureFile (reinitSuccess s) e row = q
        intro h
        cases h with
        | giveUp s1 h1 => exact .giveUp s1 (h1.trans hc)
        | retryNil s1 h1 => exact .retryNil s1 (h1.trans hc)
        | retryCreateOpen s1 h1 => exact .retryCreateOpen s1 (h1.trans hc)
        | retryCreateGone s1 n h1 => exact .retryCreateGone s1 n (h1.trans hc)
        | retryOpen s1 h1 => exact .retryOpen s1 (h1.trans hc)
        | retryOpenAfterCreate s1 n h1 => exact .retryOpenAfterCreate s1 n h1
        | retryZero s1 h1 => exact .retryZero s1 (h1.trans hc)
        | retryZeroAfterCreate s1 n h1 => exact .retryZeroAfterCreate s1 n h1
        | commit s1 h1 => exact .commit s1 (by omega)
        | commitAfterCreate s1 n h1 => exact .commitAfterCreate s1 n h1
    · rw [if_neg hF]
      exact .giveUp _ rfl

/-- C4: in every execution of `logData`, the tracked row counter advances
only immediately after a non-zero row write followed by its flush and
close (`goodInc`); the final `logCount` is exactly the replay of the
trace's reset/increment events; and an increment happens exactly once on
a committed call and never on a failed one. -/
theorem logData_increments_only_after_commit (s : Sys) (e0 e1 : LogIterEnv) (row : List Char) :
    goodInc (logData s e0 e1 row).trace = true ∧
    (logData s e0 e1 row).sys.logCount = applyCount s.logCount (logData s e0 e1 row).trace ∧
    countIncs (logData s e0 e1 row).trace =
      (if (logData s e0 e1 row).ok then 1 else 0) := by
  have H0 := logDataIter_shape s e0 row
  unfold logData
  revert H0
  generalize logDataIter s e0 row = q0
  intro H0
  cases H0 with
  | giveUp s1 h1 =>
    simp [goodInc, goodIncFrom, isCommitWindow, countIncs, applyCount, h1]
  | commit s1 h1 =>
    simp [goodInc, goodIncFrom, isCommitWindow, countIncs, applyCount, h1]
  | commitAfterCreate s1 n h1 =>
    simp [goodInc, goodIncFrom, isCommitWindow, countIncs, applyCount, h1]
  | retryNil s1 h1 =>
    unfold logDataFinish
    rcases h2 : logDataIter s1 e1 row with ⟨o, t1⟩
    have H1 := logDataIter_shape s1 e1 row
    rw [h2] at H1
    simp only [h2]
    cases H1 <;>
      simp_all [goodInc, goodIncFrom, isCommitWindow, countIncs, applyCount]
  | retryCreateOpen s1 h1 =>
    unfold logDataFinish
    rcases h2 : logDataIter s1 e1 row with ⟨o, t1⟩
    have H1 := logDataIter_shape s1 e1 row
    rw [h2] at H1
    simp only [h2]
    cases H1 <;>
      simp_all [goodInc, goodIncFrom, isCommitWindow, countIncs, applyCount]
  | retryCreateGone s1 n h1 =>
    unfold logDataFinish
    rcases h2 : logDataIter s1 e1 row with ⟨o, t1⟩
    have H1 := logDataIter_shape s1 e1 row
    rw [h2] at H1
    simp only [h2]
    cases H1 <;>
      simp_all [goodInc, goodIncFrom, isCommitWindow, countIncs, applyCount]
  | retryOpen s1 h1 =>
    unfold logDataFinish
    rcases h2 : logDataIter s1 e1 row with ⟨o, t1⟩
    have H1 := logDataIter_shape s1 e1 row
    rw [h2] at H1
    simp only [h2]
    cases H1 <;>
      simp_all [goodInc, goodIncFrom, isCommitWindow, countIncs, applyCount]
  | retryOpenAfterCreate s1 n h1 =>
    unfold logDataFinish
    rcases h2 : logDataIter s1 e1 row with ⟨o, t1⟩
    have H1 := logDataIter_shape s1 e1 row
    rw [h2] at H1
    simp only [h2]
    cases H1 <;>
      simp_all [goodInc, goodIncFrom, isCommitWindow, countIncs, applyCount]
  | retryZero s1 h1 =>
    unfold logDataFinish
    rcases h2 : logDataIter s1 e1 row with ⟨o, t1⟩
    have H1 := logDataIter_shape s1 e1 row
    rw [h2] at H1
    simp only [h2]
    cases H1 <;>
      simp_all [goodInc, goodIncFrom, isCommitWindow, countIncs, applyCount]
  | retryZeroAfterCreate s1 n h1 =>
    unfold logDataFinish
    rcases h2 : logDataIter s1 e1 row with ⟨o, t1⟩
    have H1 := logDataIter_shape s1 e1 row
    rw [h2] at H1
    simp only [h2]
    cases H1 <;>
      simp_all [goodInc, goodIncFrom, isCommitWindow, countIncs, applyCount]

/-- C6: when the card was healthy but `/data.csv` is found absent,
`logData` recreates the file with the canonical header, resets the tracked
counter to 0, and the append that follows in the same call brings the
tracked count to 1 — not a continuation of the prior count. -/
theorem logData_recreates_and_restarts_count (s : Sys) (e0 e1 : LogIterEnv) (row : List Char)
    (h1 : s.sdAvailable = true)
    (h2 : Storage.existsFile s.storage dataFileName = false)
    (h3 : e0.createOpenOK = true) (h4 : e0.headerWriteOK = true)
    (h5 : e0.vanishAfterCreate = false) (h6 : e0.rowOpenOK = true) (h7 : e0.rowWriteOK = true) :
    (logData s e0 e1 row).ok = true ∧
    LogEv.resetCount ∈ (logData s e0 e1 row).trace ∧
    (logData s e0 e1 row).sys.logCount = 1 ∧
    Storage.getFile (logData s e0 e1 row).sys.storage dataFileName =
      some (headerLine ++ row ++ ['\r', '\n']) := by
  unfold logData logDataIter logDataEnsureFile logDataRowWrite rowWriteStorage rowWritten
    logDataCreateStorage
  simp [h1, h2, h3, h4, h5, h6, h7, Storage.openWriteEnsure, Storage.setFile,
    Storage.existsFile, Storage.appendToFile, Storage.getFile]

/-- Pre-state for the C6 witness: healthy card, prior tracked count 41,
but the medium holds no file at all. -/
def c6State : Sys := { baseSys with sdAvailable := true, logCount := 41 }

/-- Witness for C6 at a concrete state: the recreate-and-append path ends
with tracked count 1, not 42. -/
theorem logData_recreates_and_restarts_count_witness :
    (logData c6State allOKIter allOKIter ['r']).ok = true ∧
    LogEv.resetCount ∈ (logData c6State allOKIter allOKIter ['r']).trace ∧
    (logData c6State allOKIter allOKIter ['r']).sys.logCount = 1 ∧
    Storage.getFile (logData c6State allOKIter allOKIter ['r']).sys.storage dataFileName =
      some (headerLine ++ ['r'] ++ ['\r', '\n']) :=
  logData_recreates_and_restarts_count c6State allOKIter allOKIter ['r'] rfl rfl rfl rfl rfl
    rfl rfl

/-- The projection of `Sys` onto the fields that `logData` and
`verifyLastWrite` never touch (those two mutate only the storage-health
fields, `logCount`, `interval` and the medium content). -/
structure CoreView where
  shtOK : Bool
  ds18b20OK : Bool
  rtcOK : Bool
  displayOn : Bool
  displayUpdateCount : Nat
  dsConvPending : Bool
  dsConvReadyAt : Nat
  sht_retry_counter : Nat
  lastMeasureUnix : Nat
  isMeasuring : Bool
  dataT : Rat
  dataH : Rat
  dataTd : Rat
  dataTWater : Rat
  dataShtValid : Bool
  dataWaterTempValid : Bool
  dataTs : DateTime
  historicalValid : Bool

/-- Project a `Sys` onto its logging-invariant fields. -/
def coreView (s : Sys) : CoreView :=
  ⟨s.shtOK, s.ds18b20OK, s.rtcOK, s.displayOn, s.displayUpdateCount, s.dsConvPending,
   s.dsConvReadyAt, s.sht_retry_counter, s.lastMeasureUnix, s.isMeasuring, s.dataT, s.dataH,
   s.dataTd, s.dataTWater, s.dataShtValid, s.dataWaterTempValid, s.dataTs, s.historicalValid⟩

/-- The row-append stage touches none of the logging-invariant fields. -/
theorem logDataRowWrite_core (s : Sys) (e : LogIterEnv) (row : List Char) (evs : List LogEv) :
    coreView (logDataRowWrite s e row evs).1.sys = coreView s := by
  unfold logDataRowWrite
  split_ifs <;> rfl

/-- The file-presence stage touches none of the logging-invariant fields. -/
theorem logDataEnsureFile_core (s : Sys) (e : LogIterEnv) (row : List Char) :
    coreView (logDataEnsureFile s e row).1.sys = coreView s := by
  unfold logDataEnsureFile
  split_ifs <;> first | rfl | exact logDataRowWrite_core _ e row _

/-- One `logData` iteration touches none of the logging-invariant
fields. -/
theorem logDataIter_core (s : Sys) (e : LogIterEnv) (row : List Char) :
    coreView (logDataIter s e row).1.sys = coreView s := by
  unfold logDataIter
  split_ifs <;> first | rfl | exact logDataEnsureFile_core _ e row

/-- `logData` touches none of the logging-invariant fields. -/
theorem logData_core (s : Sys) (e0 e1 : LogIterEnv) (row : List Char) :
    coreView (logData s e0 e1 row).sys = coreView s := by
  unfold logData
  rcases h0 : logDataIter s e0 row with ⟨o0, t0⟩
  have hc0 := logDataIter_core s e0 row
  rw [h0] at hc0
  cases o0 with
  | done s1 ok => exact hc0
  | retry s1 =>
    show coreView (logDataFinish t0 s1 e1 row).sys = coreView s
    unfold logDataFinish
    rcases h1 : logDataIter s1 e1 row with ⟨o1, t1⟩
    have hc1 := logDataIter_core s1 e1 row
    rw [h1] at hc1
    cases o1 with
    | done s2 ok => exact hc1.trans hc0
    | retry s2 => exact hc1.trans hc0

/-- `verifyLastWrite` touches none of the logging-invariant fields. -/
theorem verifyLastWrite_core (s : Sys) (e : VerifyEnv) :
    coreView (verifyLastWrite s e).sys = coreView s := by
  unfold verifyLastWrite
  split
  · rfl
  · split
    · rfl
    · dsimp only
      split_ifs <;> rfl

/-- `logData` leaves the reading timestamp alone. -/
theorem logData_dataTs (s : Sys) (e0 e1 : LogIterEnv) (row : List Char) :
    (logData s e0 e1 row).sys.dataTs = s.dataTs :=
  congrArg CoreView.dataTs (logData_core s e0 e1 row)

/-- `logData` leaves the SHT3x validity flag alone. -/
theorem logData_dataShtValid (s : Sys) (e0 e1 : LogIterEnv) (row : List Char) :
    (logData s e0 e1 row).sys.dataShtValid = s.dataShtValid :=
  congrArg CoreView.dataShtValid (logData_core s e0 e1 row)

/-- `logData` leaves the DS18B20 health flag alone. -/
theorem logData_ds18b20OK (s : Sys) (e0 e1 : LogIterEnv) (row : List Char) :
    (logData s e0 e1 row).sys.ds18b20OK = s.ds18b20OK :=
  congrArg CoreView.ds18b20OK (logData_core s e0 e1 row)

/-- `logData` leaves the water reading alone. -/
theorem logData_dataTWater (s : Sys) (e0 e1 : LogIterEnv) (row : List Char) :
    (logData s e0 e1 row).sys.dataTWater = s.dataTWater :=
  congrArg CoreView.dataTWater (logData_core s e0 e1 row)

/-- `logData` leaves the water validity flag alone. -/
theorem logData_dataWaterTempValid (s : Sys) (e0 e1 : LogIterEnv) (row : List Char) :
    (logData s e0 e1 row).sys.dataWaterTempValid = s.dataWaterTempValid :=
  congrArg CoreView.dataWaterTempValid (logData_core s e0 e1 row)

/-- `verifyLastWrite` leaves the reading timestamp alone. -/
theorem verifyLastWrite_dataTs (s : Sys) (e : VerifyEnv) :
    (verifyLastWrite s e).sys.dataTs = s.dataTs :=
  congrArg CoreView.dataTs (verifyLastWrite_core s e)

/-- `verifyLastWrite` leaves the SHT3x validity flag alone. -/
theorem verifyLastWrite_dataShtValid (s : Sys) (e : VerifyEnv) :
    (verifyLastWrite s e).sys.dataShtValid = s.dataShtValid :=
  congrArg CoreView.dataShtValid (verifyLastWrite_core s e)

/-- `verifyLastWrite` leaves the DS18B20 health flag alone. -/
theorem verifyLastWrite_ds18b20OK (s : Sys) (e : VerifyEnv) :
    (verifyLastWrite s e).sys.ds18b20OK = s.ds18b20OK :=
  congrArg CoreView.ds18b20OK (verifyLastWrite_core s e)

/-- `verifyLastWrite` leaves the water reading alone. -/
theorem verifyLastWrite_dataTWater (s : Sys) (e : VerifyEnv) :
    (verifyLastWrite s e).sys.dataTWater = s.dataTWater :=
  congrArg CoreView.dataTWater (verifyLastWrite_core s e)

/-- `verifyLastWrite` leaves the water validity flag alone. -/
theorem verifyLastWrite_dataWaterTempValid (s : Sys) (e : VerifyEnv) :
    (verifyLastWrite s e).sys.dataWaterTempValid = s.dataWaterTempValid :=
  congrArg CoreView.dataWaterTempValid (verifyLastWrite_core s e)

/-- `dewpoint` (lines 132-136): the Magnus formula with `b = 17.62`,
`c = 243.12`; libm `log` is an external collaborator supplied as
`logFn`. -/
def dewpoint (logFn : Rat → Rat) (t h : Rat) : Rat :=
  let b : Rat := 1762 / 100
  let c : Rat := 24312 / 100
  let g := logFn (h / 100) + (b * t) / (c + t)
  (c * g) / (b - g)

/-- The SHT3x read block shared by `measureAndLog` (lines 889-903) and
`measureDisplay` (lines 942-954): with a healthy sensor, a NaN-free pair
(the library returns NaN on failure, modelled as `none`) fills the
reading and its dew point; a NaN marks the sensor unhealthy again. -/
def shtReadStage (s : Sys) (t h : Option Rat) (logFn : Rat → Rat) : Sys :=
  if s.shtOK then
    match t, h with
    | some tv, some hv =>
      { s with dataT := tv, dataH := hv, dataTd := dewpoint logFn tv hv, dataShtValid := true }
    | _, _ => { s with shtOK := false }
  else s

/-- The synchronous DS18B20 block of `measureAndLog` (lines 905-917):
blocking conversion, then the sentinel filter — a sentinel value is not
stored and marks the sensor unhealthy. -/
def dsSyncStage (s : Sys) (tW : Rat) : Sys :=
  if s.ds18b20OK then
    if tW != DS18B20_ERROR_DISCONNECTED && tW != DS18B20_ERROR_POWER_ON_RESET then
      { s with dataTWater := tW, dataWaterTempValid := true }
    else { s with ds18b20OK := false }
  else s

/-- The SHT3x read block leaves the DS18B20 health flag alone. -/
theorem shtReadStage_ds18b20OK (s : Sys) (t h : Option Rat) (f : Rat → Rat) :
    (shtReadStage s t h f).ds18b20OK = s.ds18b20OK := by
  unfold shtReadStage
  split
  · split <;> rfl
  · rfl

/-- The SHT3x read block leaves the pending-conversion flag alone. -/
theorem shtReadStage_dsConvPending (s : Sys) (t h : Option Rat) (f : Rat → Rat) :
    (shtReadStage s t h f).dsConvPending = s.dsConvPending := by
  unfold shtReadStage
  split
  · split <;> rfl
  · rfl

/-- The SHT3x read block leaves the conversion deadline alone. -/
theorem shtReadStage_dsConvReadyAt (s : Sys) (t h : Option Rat) (f : Rat → Rat) :
    (shtReadStage s t h f).dsConvReadyAt = s.dsConvReadyAt := by
  unfold shtReadStage
  split
  · split <;> rfl
  · rfl

/-- The SHT3x read block leaves the RTC health flag alone. -/
theorem shtReadStage_rtcOK (s : Sys) (t h : Option Rat) (f : Rat → Rat) :
    (shtReadStage s t h f).rtcOK = s.rtcOK := by
  unfold shtReadStage
  split
  · split <;> rfl
  · rfl

/-- The SHT3x read block leaves the card health flag alone. -/
theorem shtReadStage_sdAvailable (s : Sys) (t h : Option Rat) (f : Rat → Rat) :
    (shtReadStage s t h f).sdAvailable = s.sdAvailable := by
  unfold shtReadStage
  split
  · split <;> rfl
  · rfl

/-- The SHT3x read block leaves the water reading alone. -/
theorem shtReadStage_dataTWater (s : Sys) (t h : Option Rat) (f : Rat → Rat) :
    (shtReadStage s t h f).dataTWater = s.dataTWater := by
  unfold shtReadStage
  split
  · split <;> rfl
  · rfl

/-- The SHT3x read block leaves the water validity flag alone. -/
theorem shtReadStage_dataWaterTempValid (s : Sys) (t h : Option Rat) (f : Rat → Rat) :
    (shtReadStage s t h f).dataWaterTempValid = s.dataWaterTempValid := by
  unfold shtReadStage
  split
  · split <;> rfl
  · rfl

/-- Starting from a cleared validity flag, the SHT3x read block reports a
valid reading exactly when the sensor is healthy and neither channel
returned NaN. -/
theorem shtReadStage_dataShtValid (s : Sys) (t h : Option Rat) (f : Rat → Rat)
    (hv : s.dataShtValid = false) :
    (shtReadStage s t h f).dataShtValid = (s.shtOK && t.isSome && h.isSome) := by
  unfold shtReadStage
  rcases hs : s.shtOK <;> rcases t <;> rcases h <;> simp_all

/-- The synchronous DS18B20 block leaves the RTC health flag alone. -/
theorem dsSyncStage_rtcOK (s : Sys) (tW : Rat) :
    (dsSyncStage s tW).rtcOK = s.rtcOK := by
  unfold dsSyncStage
  split_ifs <;> rfl

/-- The synchronous DS18B20 block leaves the card health flag alone. -/
theorem dsSyncStage_sdAvailable (s : Sys) (tW : Rat) :
    (dsSyncStage s tW).sdAvailable = s.sdAvailable := by
  unfold dsSyncStage
  split_ifs <;> rfl

/-- The synchronous DS18B20 block leaves the SHT3x validity flag alone. -/
theorem dsSyncStage_dataShtValid (s : Sys) (tW : Rat) :
    (dsSyncStage s tW).dataShtValid = s.dataShtValid := by
  unfold dsSyncStage
  split_ifs <;> rfl

/-- The synchronous DS18B20 block leaves the reading timestamp alone. -/
theorem dsSyncStage_dataTs (s : Sys) (tW : Rat) :
    (dsSyncStage s tW).dataTs = s.dataTs := by
  unfold dsSyncStage
  split_ifs <;> rfl

/-- Hardware outcomes consumed by one `measureAndLog` call: the SHT3x
re-probe result (`sht31.begin(0x44) || sht31.begin(0x45)`), the two SHT3x
channel reads (`none` = NaN), libm `log`, the blocking DS18B20 read, the
RTC reading and libc `localtime`, and the outcomes feeding `logData` /
`verifyLastWrite` (the serialized row abstracted as `rowChars`). -/
structure MeasureEnv where
  shtBeginOK : Bool
  shtTemp : Option Rat
  shtHum : Option Rat
  logFn : Rat → Rat
  dsTemp : Rat
  rtcNow : Nat
  localtime : Nat → DateTime
  logEnv0 : LogIterEnv
  logEnv1 : LogIterEnv
  rowChars : List Char
  verifyEnv : VerifyEnv

/-- Result of `measureAndLog`: the post-state plus (model instrumentation)
whether `sht31.begin` was attempted this cycle. -/
structure MeasureResult where
  sys : Sys
  shtProbed : Bool

/-- `measureAndLog` (lines 875-930): clear the validity flags, bump the
retry cycle counter, re-probe an unhealthy SHT3x only on counter-modulo
cycles, read the SHT3x, do the blocking DS18B20 read with the sentinel
filter, stamp the reading (RTC local time, or the placeholder when the
RTC is unavailable), then — only with a healthy card — append and verify;
finally record the measurement instant. -/
def measureAndLog (s0 : Sys) (e : MeasureEnv) : MeasureResult :=
  let s1 : Sys := { s0 with isMeasuring := true, dataShtValid := false, dataWaterTempValid := false, sht_retry_counter := u32 (s0.sht_retry_counter + 1) }
  let probed := !s1.shtOK && (s1.sht_retry_counter % SHT_RETRY_INTERVAL == 0)
  let s2 := if probed then { s1 with shtOK := e.shtBeginOK } else s1
  let s3 := shtReadStage s2 e.shtTemp e.shtHum e.logFn
  let s4 := dsSyncStage s3 e.dsTemp
  let nowUnix := if s4.rtcOK then e.rtcNow else 0
  let s5 : Sys := { s4 with dataTs := if s4.rtcOK then e.localtime nowUnix else PLACEHOLDER_TS }
  let s6 := if s5.sdAvailable then
      (verifyLastWrite (logData s5 e.logEnv0 e.logEnv1 e.rowChars).sys e.verifyEnv).sys
    else s5
  ⟨{ s6 with lastMeasureUnix := nowUnix, isMeasuring := false }, probed⟩

/-- Hardware outcomes consumed by one `measureDisplay` call. -/
structure DisplayEnv where
  shtBeginOK : Bool
  shtTemp : Option Rat
  shtHum : Option Rat
  logFn : Rat → Rat
  resolution : Nat
  millis : Nat
  rtcNow : Nat
  localtime : Nat → DateTime

/-- Result of `measureDisplay`: the post-state plus (model
instrumentation) whether `sht31.begin` was attempted and whether
`requestTemperatures` started a hardware conversion. -/
structure DisplayResult where
  sys : Sys
  shtProbed : Bool
  convStarted : Bool

/-- DS18B20 conversion delay by configured resolution (lines 959-962). -/
def convDelayMs (res : Nat) : Nat :=
  if res == 9 then 94 else if res == 10 then 188 else if res == 11 then 375 else 750

/-- `measureDisplay` (lines 932-972): clear the validity flags, re-probe
an unhealthy SHT3x unconditionally, read the SHT3x, and — with a healthy
DS18B20 — set the pending flag, start an asynchronous hardware conversion
and set the deadline to `millis() + convMs` (`uint32_t` addition); finally
stamp the reading from the RTC unconditionally. -/
def measureDisplay (s0 : Sys) (e : DisplayEnv) : DisplayResult :=
  let s1 : Sys := { s0 with dataShtValid := false, dataWaterTempValid := false }
  let probed := !s1.shtOK
  let s2 := if !s1.shtOK then { s1 with shtOK := e.shtBeginOK } else s1
  let s3 := shtReadStage s2 e.shtTemp e.shtHum e.logFn
  let started := s3.ds18b20OK
  let s4 := if s3.ds18b20OK then { s3 with dsConvPending := true, dsConvReadyAt := u32 (e.millis + convDelayMs e.resolution) } else s3
  let s5 : Sys := { s4 with dataTs := e.localtime e.rtcNow }
  ⟨s5, probed, started⟩

/-- C7 (amended): in the periodic logging path (`measureAndLog`) an
unhealthy SHT3x is re-probed exactly on cycle indices that are multiples
of `SHT_RETRY_INTERVAL`; the on-demand display path (`measureDisplay`)
re-probes unconditionally whenever the sensor is unhealthy, regardless of
the cycle counter. -/
theorem sht_reprobe_policy (s sd : Sys) (e : MeasureEnv) (ed : DisplayEnv) :
    (measureAndLog s e).shtProbed =
      (!s.shtOK && (u32 (s.sht_retry_counter + 1) % SHT_RETRY_INTERVAL == 0)) ∧
    (measureDisplay sd ed).shtProbed = !sd.shtOK :=
  ⟨rfl, rfl⟩

/-- Concrete state for the C7 counterexample: unhealthy SHT3x at cycle
counter 3 (not a multiple of the backoff interval). -/
def c7State : Sys := { baseSys with shtOK := false, sht_retry_counter := 3 }

/-- Display-path hardware outcomes for the C7 counterexample. -/
def c7DisplayEnv : DisplayEnv :=
  ⟨true, some 20, some 50, fun _ => 0, 12, 0, 0, fun _ => PLACEHOLDER_TS⟩

/-- C7 counterexample: with the SHT3x unhealthy and the cycle counter at
3 (not a multiple of `SHT_RETRY_INTERVAL = 10`, which `measureDisplay`
leaves unchanged), the display path still attempts `sht31.begin`. -/
theorem measureDisplay_reprobe_off_cycle_cex :
    c7State.shtOK = false ∧
    c7State.sht_retry_counter % SHT_RETRY_INTERVAL ≠ 0 ∧
    (measureDisplay c7State c7DisplayEnv).shtProbed = true ∧
    (measureDisplay c7State c7DisplayEnv).sys.sht_retry_counter = c7State.sht_retry_counter :=
  ⟨rfl, by decide, rfl, rfl⟩

/-- C1 (amended): `measureDisplay`'s async block does not consult the
pending flag: whenever the DS18B20 is healthy it starts a hardware
conversion and moves the deadline to `millis() + convMs`, leaving the
pending flag true (so a single conversion is tracked — a restart replaces
the previous one); with an unhealthy DS18B20 the block is a no-op on the
conversion state. -/
theorem measureDisplay_conv_start_semantics (s : Sys) (e : DisplayEnv) :
    (measureDisplay s e).convStarted = s.ds18b20OK ∧
    (measureDisplay s e).sys.dsConvPending = (s.ds18b20OK || s.dsConvPending) ∧
    (measureDisplay s e).sys.dsConvReadyAt =
      (if s.ds18b20OK then u32 (e.millis + convDelayMs e.resolution) else s.dsConvReadyAt) := by
  unfold measureDisplay
  simp only [shtReadStage_ds18b20OK, shtReadStage_dsConvPending, shtReadStage_dsConvReadyAt]
  split_ifs <;>
    simp_all [shtReadStage_ds18b20OK, shtReadStage_dsConvPending, shtReadStage_dsConvReadyAt]

/-- Concrete state for the C1 counterexample: a conversion is pending with
deadline 5000 and the DS18B20 is healthy. -/
def c1State : Sys :=
  { baseSys with ds18b20OK := true, dsConvPending := true, dsConvReadyAt := 5000 }

/-- Display-path hardware outcomes for the C1 counterexample
(`millis() = 6000`, 12-bit resolution). -/
def c1DisplayEnv : DisplayEnv :=
  ⟨true, some 20, some 50, fun _ => 0, 12, 6000, 0, fun _ => PLACEHOLDER_TS⟩

/-- C1 counterexample: calling `measureDisplay`'s async block while a
conversion is already pending is not a no-op — a new hardware conversion
is started and the ready-at deadline moves (5000 to 6750). -/
theorem measureDisplay_restart_pending_cex :
    c1State.dsConvPending = true ∧
    (measureDisplay c1State c1DisplayEnv).convStarted = true ∧
    (measureDisplay c1State c1DisplayEnv).sys.dsConvReadyAt ≠ c1State.dsConvReadyAt :=
  ⟨rfl, rfl, by decide⟩

/-- The SHT3x-validity outcome of one `measureAndLog` cycle, as a function
of the pre-state health/backoff fields and the sensor outcomes only — in
particular independent of the RTC flag: the measurement proceeds with or
without a clock. -/
def shtValidFormula (s : Sys) (e : MeasureEnv) : Bool :=
  (if !s.shtOK && (u32 (s.sht_retry_counter + 1) % SHT_RETRY_INTERVAL == 0) then e.shtBeginOK
   else s.shtOK) && e.shtTemp.isSome && e.shtHum.isSome

/-- C9 (amended): `measureAndLog` stamps the Reading with the RTC's local
time when the clock is available and with the fixed placeholder when it is
not, and the measurement outcome is independent of the clock; but
`measureDisplay` always stamps from the RTC conversion, with no
placeholder fallback when `rtcOK` is false. -/
theorem acquisition_timestamp_policy (s sd : Sys) (e : MeasureEnv) (ed : DisplayEnv) :
    (measureAndLog s e).sys.dataTs =
      (if s.rtcOK then e.localtime e.rtcNow else PLACEHOLDER_TS) ∧
    (measureAndLog s e).sys.dataShtValid = shtValidFormula s e ∧
    (measureDisplay sd ed).sys.dataTs = ed.localtime ed.rtcNow := by
  refine ⟨?_, ?_, rfl⟩
  · unfold measureAndLog
    simp only [logData_dataTs, verifyLastWrite_dataTs, dsSyncStage_rtcOK, shtReadStage_rtcOK,
      dsSyncStage_dataTs]
    split_ifs <;>
      simp_all [logData_dataTs, verifyLastWrite_dataTs, dsSyncStage_rtcOK, shtReadStage_rtcOK,
        dsSyncStage_dataTs]
  · unfold measureAndLog shtValidFormula
    simp only [logData_dataShtValid, verifyLastWrite_dataShtValid, dsSyncStage_dataShtValid]
    split_ifs <;>
      simp_all [logData_dataShtValid, verifyLastWrite_dataShtValid, dsSyncStage_dataShtValid,
        shtReadStage_dataShtValid]

/-- Concrete state for the C9 counterexample: the RTC is unavailable. -/
def c9State : Sys := { baseSys with rtcOK := false }

/-- Display-path hardware outcomes for the C9 counterexample: libc
converts the (garbage) RTC reading 777 to a 1970 date. -/
def c9DisplayEnv : DisplayEnv :=
  ⟨true, some 20, some 50, fun _ => 0, 12, 0, 777, fun u => ⟨1970, 1, 1, 0, 0, u⟩⟩

/-- C9 counterexample: with the clock unavailable, `measureDisplay` still
stamps the reading from the RTC conversion — not with the placeholder
timestamp. -/
theorem measureDisplay_no_placeholder_cex :
    c9State.rtcOK = false ∧
    (measureDisplay c9State c9DisplayEnv).sys.dataTs = ⟨1970, 1, 1, 0, 0, 777⟩ ∧
    (measureDisplay c9State c9DisplayEnv).sys.dataTs ≠ PLACEHOLDER_TS :=
  ⟨rfl, rfl, by decide⟩

/-- With a healthy DS18B20, a sentinel read marks the sensor unhealthy and
stores nothing. -/
theorem dsSyncStage_sentinel (s : Sys) (tW : Rat)
    (h1 : s.ds18b20OK = true)
    (h2 : (tW != DS18B20_ERROR_DISCONNECTED && tW != DS18B20_ERROR_POWER_ON_RESET) = false) :
    dsSyncStage s tW = { s with ds18b20OK := false } := by
  unfold dsSyncStage
  rw [h1, h2]
  simp

/-- Hardware outcomes consumed by one `updateDisplay` call: the current
`millis()` and the DS18B20 read result. -/
structure UpdateDisplayEnv where
  millis : Nat
  dsTemp : Rat

/-- `updateDisplay` (lines 771-869) restricted to its effect on the core
state: the asynchronous DS18B20 poll (lines 775-787, entered once the
deadline has passed, with the sentinel filter and the pending flag cleared
either way) and the display tick counter increment (line 868). All other
statements draw pixels on the display collaborator. -/
def updateDisplay (s : Sys) (e : UpdateDisplayEnv) : Sys :=
  if !s.displayOn then s
  else if s.dsConvPending && decide (e.millis ≥ s.dsConvReadyAt) then
    if e.dsTemp != DS18B20_ERROR_DISCONNECTED && e.dsTemp != DS18B20_ERROR_POWER_ON_RESET then
      { s with
        dataTWater := e.dsTemp
        dataWaterTempValid := true
        dsConvPending := false
        displayUpdateCount := u32 (s.displayUpdateCount + 1) }
    else
      { s with
        ds18b20OK := false
        dsConvPending := false
        displayUpdateCount := u32 (s.displayUpdateCount + 1) }
  else { s with displayUpdateCount := u32 (s.displayUpdateCount + 1) }

/-- The wrap-safe deadline check `(int32_t)(millis() - dsConvReadyAt) >= 0`
(line 1107): the `uint32_t` difference, reinterpreted as a signed 32-bit
value, is nonnegative. -/
def millisReachedI32 (now readyAt : Nat) : Bool :=
  decide ((now + (4294967296 - readyAt % 4294967296)) % 4294967296 < 2147483648)

/-- The pending-conversion force-resolve block at the head of
`enterLightSleep` (lines 1102-1119): poll until the wrap-safe deadline
check passes (the 2-second budget and the 10 ms polling delay are
modelled by the list `ms` of successive `millis()` samples), store a
non-sentinel value, and clear the pending flag unconditionally afterwards
(line 1118). Returns the state and whether a hardware read resolved the
conversion. -/
def dsForceResolve (tW : Rat) : Sys → List Nat → Sys × Bool
  | s, [] => ({ s with dsConvPending := false }, false)
  | s, now :: rest =>
    if s.dsConvPending then
      if millisReachedI32 now s.dsConvReadyAt then
        if tW != DS18B20_ERROR_DISCONNECTED && tW != DS18B20_ERROR_POWER_ON_RESET then
          ((dsForceResolve tW { s with dataTWater := tW, dataWaterTempValid := true, dsConvPending := false } rest).1, true)
        else ((dsForceResolve tW { s with dsConvPending := false } rest).1, true)
      else dsForceResolve tW s rest
    else ({ s with dsConvPending := false }, false)

/-- C8 (amended): a resolved DS18B20 reading equal to either sentinel code
is treated as invalid on every path — the value is never stored and the
validity flag is not raised; the display poll (`updateDisplay`) and the
logging path (`measureAndLog`) additionally set `ds18b20OK` to false, but
the pre-sleep force-resolve (`enterLightSleep`) leaves `ds18b20OK`
unchanged. -/
theorem ds_sentinel_policy (su sm sf : Sys) (eu : UpdateDisplayEnv) (em : MeasureEnv)
    (v : Rat) (ms : List Nat)
    (hv : v = DS18B20_ERROR_DISCONNECTED ∨ v = DS18B20_ERROR_POWER_ON_RESET)
    (hu1 : su.displayOn = true) (hu2 : su.dsConvPending = true)
    (hu3 : eu.millis ≥ su.dsConvReadyAt) (hu4 : eu.dsTemp = v)
    (hm1 : sm.ds18b20OK = true) (hm2 : em.dsTemp = v) :
    (updateDisplay su eu).ds18b20OK = false ∧
    (updateDisplay su eu).dataWaterTempValid = su.dataWaterTempValid ∧
    (updateDisplay su eu).dataTWater = su.dataTWater ∧
    (updateDisplay su eu).dsConvPending = false ∧
    (measureAndLog sm em).sys.ds18b20OK = false ∧
    (measureAndLog sm em).sys.dataWaterTempValid = false ∧
    (measureAndLog sm em).sys.dataTWater = sm.dataTWater ∧
    (dsForceResolve v sf ms).1 = { sf with dsConvPending := false } := by
  have hbe : (v != DS18B20_ERROR_DISCONNECTED && v != DS18B20_ERROR_POWER_ON_RESET) = false := by
    rcases hv with h | h <;> subst h <;> decide
  refine ⟨?_, ?_, ?_, ?_, ?_, ?_, ?_, ?_⟩
  case _ | _ | _ | _ =>
    unfold updateDisplay
    rw [hu1, hu2, hu4]
    simp [hbe, hu3]
  case _ | _ | _ =>
    unfold measureAndLog
    simp only [hm2]
    rw [dsSyncStage_sentinel]
    rotate_left
    · simp [shtReadStage_ds18b20OK, hm1, apply_ite Sys.ds18b20OK]
    · exact hbe
    simp only [logData_ds18b20OK, verifyLastWrite_ds18b20OK, logData_dataWaterTempValid,
      verifyLastWrite_dataWaterTempValid, logData_dataTWater, verifyLastWrite_dataTWater]
    split_ifs <;>
      simp_all [logData_ds18b20OK, verifyLastWrite_ds18b20OK, logData_dataWaterTempValid,
        verifyLastWrite_dataWaterTempValid, logData_dataTWater, verifyLastWrite_dataTWater,
        shtReadStage_dataWaterTempValid, shtReadStage_dataTWater]
  case _ =>
    induction ms generalizing sf with
    | nil => rfl
    | cons now rest ih =>
      unfold dsForceResolve
      by_cases hp : sf.dsConvPending = true
      · rw [if_pos hp]
        by_cases hr : millisReachedI32 now sf.dsConvReadyAt = true
        · rw [if_pos hr, hbe]
          simp only [Bool.false_eq_true, if_false]
          exact ih _
        · rw [if_neg hr]
          exact ih sf
      · rw [if_neg hp]

/-- Concrete state for the C8 counterexample: healthy DS18B20, conversion
pending with deadline 100. -/
def c8State : Sys :=
  { baseSys with ds18b20OK := true, dsConvPending := true, dsConvReadyAt := 100 }

/-- C8 counterexample: the pre-sleep force-resolve reads the disconnected
sentinel (-127.0) at `millis() = 100`, clears the pending flag and stores
nothing — but leaves `ds18b20OK` true, where the claim requires it to be
set false. -/
theorem forceResolve_sentinel_keeps_health_cex :
    c8State.ds18b20OK = true ∧
    c8State.dsConvPending = true ∧
    (dsForceResolve DS18B20_ERROR_DISCONNECTED c8State [100]).2 = true ∧
    (dsForceResolve DS18B20_ERROR_DISCONNECTED c8State [100]).1.ds18b20OK = true ∧
    (dsForceResolve DS18B20_ERROR_DISCONNECTED c8State [100]).1.dsConvPending = false ∧
    (dsForceResolve DS18B20_ERROR_DISCONNECTED c8State [100]).1.dataWaterTempValid = false :=
  ⟨rfl, rfl, by decide, by decide, by decide, by decide⟩

/-- Concrete display-poll state for the C8 witness. -/
def c8UState : Sys :=
  { baseSys with displayOn := true, ds18b20OK := true, dsConvPending := true, dsConvReadyAt := 50 }

/-- Display-poll hardware outcomes for the C8 witness: the power-on-reset
sentinel (85.0) read at `millis() = 60`. -/
def c8UEnv : UpdateDisplayEnv := ⟨60, DS18B20_ERROR_POWER_ON_RESET⟩

/-- Concrete logging-path state for the C8 witness. -/
def c8MState : Sys := { baseSys with ds18b20OK := true }

/-- Logging-path hardware outcomes for the C8 witness. -/
def c8MEnv : MeasureEnv :=
  ⟨true, some 20, some 50, fun _ => 0, DS18B20_ERROR_POWER_ON_RESET, 0, fun _ => PLACEHOLDER_TS,
   allOKIter, allOKIter, ['r'], allOKVerify⟩

/-- Witness for C8 at concrete states and the power-on-reset sentinel. -/
theorem ds_sentinel_policy_witness :
    (updateDisplay c8UState c8UEnv).ds18b20OK = false ∧
    (updateDisplay c8UState c8UEnv).dataWaterTempValid = c8UState.dataWaterTempValid ∧
    (updateDisplay c8UState c8UEnv).dataTWater = c8UState.dataTWater ∧
    (updateDisplay c8UState c8UEnv).dsConvPending = false ∧
    (measureAndLog c8MState c8MEnv).sys.ds18b20OK = false ∧
    (measureAndLog c8MState c8MEnv).sys.dataWaterTempValid = false ∧
    (measureAndLog c8MState c8MEnv).sys.dataTWater = c8MState.dataTWater ∧
    (dsForceResolve DS18B20_ERROR_POWER_ON_RESET c8State [100]).1 =
      { c8State with dsConvPending := false } :=
  ds_sentinel_policy c8UState c8MState c8State c8UEnv c8MEnv DS18B20_ERROR_POWER_ON_RESET [100]
    (Or.inr rfl) rfl rfl (by decide) rfl rfl rfl

/-- Zero-padding for the name's `%02d` fields. -/
def pad2 (n : Nat) : String := if n < 10 then "0" ++ toString n else toString n

/-- Zero-padding for the name's `%04d` year field. -/
def pad4 (n : Nat) : String :=
  if n < 10 then "000" ++ toString n
  else if n < 100 then "00" ++ toString n
  else if n < 1000 then "0" ++ toString n
  else toString n

/-- The archive name `/data_YYYYMMDD_HHMMSS.csv` derived from the local
timestamp (lines 678-681). -/
def rotateName (d : DateTime) : String :=
  "/data_" ++ pad4 d.year ++ pad2 d.month ++ pad2 d.day ++ "_" ++ pad2 d.hour ++
    pad2 d.minute ++ pad2 d.second ++ ".csv"

/-- Hardware outcomes consumed by one `rotateLogFile` call: the `reinitSD`
outcome when the card is unavailable, libc local time, and the rename /
create / header-write / persistence outcomes. -/
structure RotateEnv where
  reinitOK : Bool
  reinitFailIncr : Nat
  localNow : DateTime
  renameOK : Bool
  createOpenOK : Bool
  headerWriteOK : Bool
  vanishAfterCreate : Bool

/-- Result of `rotateLogFile`. -/
structure RotateResult where
  sys : Sys
  ok : Bool

/-- The medium content after the archival step of `rotateLogFile`
(lines 683-697): when the active file exists, a colliding archive name is
removed first, then the active file is renamed to the archive name — or,
when the rename fails, deleted outright. -/
def rotateArchivedStorage (st : Storage) (newName : String) (renameOK : Bool) : Storage :=
  if Storage.existsFile st dataFileName then
    if renameOK then
      Storage.renameFile
        (if Storage.existsFile st newName then Storage.removeFile st newName else st)
        dataFileName newName
    else
      Storage.removeFile
        (if Storage.existsFile st newName then Storage.removeFile st newName else st)
        dataFileName
  else st

/-- The medium content after `rotateLogFile` opened a fresh `/data.csv`
(truncating create) and ran `println` with the header (lines 699-710);
the medium may still drop the file before the verification re-check. -/
def rotateCreateStorage (st : Storage) (e : RotateEnv) : Storage :=
  if e.vanishAfterCreate then
    Storage.removeFile
      (if e.headerWriteOK then
        Storage.appendToFile (Storage.setFile st dataFileName []) dataFileName headerLine
      else Storage.setFile st dataFileName []) dataFileName
  else
    if e.headerWriteOK then
      Storage.appendToFile (Storage.setFile st dataFileName []) dataFileName headerLine
    else Storage.setFile st dataFileName []

/-- The verification loop of `rotateLogFile` (lines 712-726): the fresh
file must exist and be non-empty. -/
def rotateVerifyOK (st : Storage) : Bool :=
  Storage.existsFile st dataFileName &&
    decide (0 < ((Storage.getFile st dataFileName).getD []).length)

/-- `rotateLogFile` (lines 671-740) after the availability check: archive
(best-effort), create the fresh header file (open failure or failed
verification mark the card unavailable and abort), then reset the row
counter and the cached history. -/
def rotateBody (s : Sys) (e : RotateEnv) : RotateResult :=
  if !e.createOpenOK then
    { sys := { s with storage := rotateArchivedStorage s.storage (rotateName e.localNow) e.renameOK, sdAvailable := false }
      ok := false }
  else if rotateVerifyOK (rotateCreateStorage (rotateArchivedStorage s.storage (rotateName e.localNow) e.renameOK) e) then
    { sys := { s with storage := rotateCreateStorage (rotateArchivedStorage s.storage (rotateName e.localNow) e.renameOK) e, logCount := 0, historicalValid := false }
      ok := true }
  else
    { sys := { s with storage := rotateCreateStorage (rotateArchivedStorage s.storage (rotateName e.localNow) e.renameOK) e, sdAvailable := false }
      ok := false }

/-- `rotateLogFile` (lines 671-740): an unavailable card is first
recovered through `reinitSD`, whose failure aborts the rotation. -/
def rotateLogFile (s0 : Sys) (e : RotateEnv) : RotateResult :=
  if !s0.sdAvailable && !e.reinitOK then
    { sys := { s0 with sdFailCount := s0.sdFailCount + e.reinitFailIncr }, ok := false }
  else rotateBody (if s0.sdAvailable then s0 else reinitSuccess s0) e

/-- Writing `cs` into a freshly created (truncated) file leaves exactly
`cs` under that name. -/
theorem getFile_set_append (st : Storage) (m : String) (cs : List Char) :
    Storage.getFile (Storage.appendToFile (Storage.setFile st m []) m cs) m = some cs := by
  simp [Storage.setFile, Storage.appendToFile, Storage.getFile]

/-- A freshly created (truncated) file holds exactly its content. -/
theorem getFile_setFile (st : Storage) (m : String) (cs : List Char) :
    Storage.getFile (Storage.setFile st m cs) m = some cs := by
  simp [Storage.setFile, Storage.getFile]

/-- After `SD.remove`, the name resolves to nothing. -/
theorem getFile_remove (st : Storage) (m : String) :
    Storage.getFile (Storage.removeFile st m) m = none := by
  induction st with
  | nil => rfl
  | cons p rest ih =>
    rcases p with ⟨n, c⟩
    unfold Storage.removeFile
    by_cases h : (n == m) = true
    · rw [if_pos h]
      exact ih
    · rw [if_neg h]
      unfold Storage.getFile
      rw [if_neg h]
      exact ih

/-- After `SD.remove`, the name no longer exists. -/
theorem existsFile_remove (st : Storage) (m : String) :
    Storage.existsFile (Storage.removeFile st m) m = false := by
  induction st with
  | nil => rfl
  | cons p rest ih =>
    rcases p with ⟨n, c⟩
    unfold Storage.removeFile
    by_cases h : (n == m) = true
    · rw [if_pos h]
      exact ih
    · rw [if_neg h]
      unfold Storage.existsFile
      simp [h, ih]

/-- C2 (amended): whenever `rotateLogFile` returns true, the active file
`/data.csv` contains exactly the header row and the tracked counter
`logCount` is 0 — including when the rename failed (the old file is then
deleted outright and rotation still completes); on a false return
(recovery, create or verification failure) neither reset is guaranteed. -/
theorem rotateLogFile_true_fresh (s : Sys) (e : RotateEnv)
    (h : (rotateLogFile s e).ok = true) :
    Storage.getFile (rotateLogFile s e).sys.storage dataFileName = some headerLine ∧
    (rotateLogFile s e).sys.logCount = 0 := by
  unfold rotateLogFile at h ⊢
  by_cases h0 : (!s.sdAvailable && !e.reinitOK) = true
  · rw [if_pos h0] at h
    exact absurd h (by simp)
  · rw [if_neg h0] at h ⊢
    unfold rotateBody at h ⊢
    by_cases h1 : (!e.createOpenOK) = true
    · rw [if_pos h1] at h
      exact absurd h (by simp)
    · rw [if_neg h1] at h ⊢
      by_cases h2 : rotateVerifyOK
          (rotateCreateStorage
            (rotateArchivedStorage (if s.sdAvailable then s else reinitSuccess s).storage
              (rotateName e.localNow) e.renameOK) e) = true
      · rw [if_pos h2] at h ⊢
        refine ⟨?_, rfl⟩
        unfold rotateVerifyOK rotateCreateStorage at h2
        unfold rotateCreateStorage
        cases hw : e.headerWriteOK with
        | true =>
          cases hvn : e.vanishAfterCreate with
          | false => simp [hw, hvn, getFile_set_append]
          | true => rw [hw, hvn] at h2; simp [existsFile_remove] at h2
        | false =>
          rw [hw] at h2
          cases hvn : e.vanishAfterCreate with
          | false => rw [hvn] at h2; simp [getFile_setFile] at h2
          | true => rw [hvn] at h2; simp [existsFile_remove] at h2
      · rw [if_neg h2] at h
        exact absurd h (by simp)

/-- Pre-state for the C2 witness: healthy card, active file with one data
row, tracked count 7. -/
def c2WState : Sys :=
  { baseSys with sdAvailable := true, logCount := 7, storage := [(dataFileName, headerLine ++ ['a', '\n'])] }

/-- Hardware outcomes for the C2 witness: the rename fails, everything
else succeeds. -/
def c2WEnv : RotateEnv := ⟨true, 0, ⟨2024, 1, 2, 3, 4, 5⟩, false, true, true, false⟩

/-- Witness for C2: with a failing rename, rotation still completes and
leaves exactly the header with a zero counter. -/
theorem rotateLogFile_true_fresh_witness :
    c2WEnv.renameOK = false ∧
    (rotateLogFile c2WState c2WEnv).ok = true ∧
    (Storage.getFile (rotateLogFile c2WState c2WEnv).sys.storage dataFileName =
        some headerLine ∧
      (rotateLogFile c2WState c2WEnv).sys.logCount = 0) :=
  ⟨rfl, by decide, rotateLogFile_true_fresh c2WState c2WEnv (by decide)⟩

/-- Pre-state for the C2 counterexample: healthy card, active file
holding the header, tracked count 5. -/
def c2State : Sys :=
  { baseSys with sdAvailable := true, logCount := 5, storage := [(dataFileName, headerLine)] }

/-- Hardware outcomes for the C2 counterexample: the create of the fresh
file fails (`createOpenOK` false). -/
def c2Env : RotateEnv := ⟨true, 0, ⟨2024, 1, 2, 3, 4, 5⟩, true, false, true, false⟩

/-- C2 counterexample: when the fresh-file create fails, `rotateLogFile`
returns with the counter still at 5 and no active file at all — so "after
rotateLogFile returns, /data.csv contains exactly the header and logCount
is 0" fails for this pre-state. -/
theorem rotateLogFile_failed_create_cex :
    (rotateLogFile c2State c2Env).ok = false ∧
    (rotateLogFile c2State c2Env).sys.logCount = 5 ∧
    Storage.getFile (rotateLogFile c2State c2Env).sys.storage dataFileName = none :=
  ⟨by decide, by decide, by decide⟩

end Datalogger
